import Mathlib

/-!
# Network configuration of a blockchain peer (`blockchain/config.go`)

A shallow embedding of `config.go` and the properties of its functions:
`ValidateConfig`, `GetMultiaddr`, the `NetworkPorts` getters, the default
profiles and `isValidHostname`.

Conventions of the embedding.

* A Go `string` is a Lean `String`, so a string of bytes that is not valid
  UTF-8 is outside the embedding; Go's `len(s)` is the number of bytes of the
  UTF-8 encoding, `goLen`.
* A Go `int` is an `Int` in the range `[minInt, maxInt]` (64 bits, as on
  amd64 and arm64); `+` on `int` wraps around, `goAdd`.
* A Go `error` is identified with its message: `none` is `nil`, `some msg`
  is an error whose `Error()` is `msg`.
* `net.ParseIP` belongs to the Go standard library, not to this repository.
  The code only tests its result against `nil`, so it enters as a parameter
  `parseIP : String → Bool`, `parseIP s = true` standing for
  `net.ParseIP(s) != nil`.
-/

namespace Blockchain

/-! ## Go primitives used by the file -/

/-- Smallest value of a 64-bit Go `int`. -/
def minInt : Int := -9223372036854775808

/-- Largest value of a 64-bit Go `int`. -/
def maxInt : Int := 9223372036854775807

/-- Two's-complement wraparound of an integer into the range of `int`. -/
def wrapInt (x : Int) : Int :=
  (x + 9223372036854775808) % 18446744073709551616 - 9223372036854775808

/-- Go's `a + b` on `int`: the sum, wrapped around on overflow. -/
def goAdd (a b : Int) : Int := wrapInt (a + b)

/-- Go's `len(s)` on a string: the number of bytes of its UTF-8 encoding. -/
def goLen (s : String) : Nat := s.utf8ByteSize

/-- The verb `%d` applied to an `int`: decimal digits, with a leading `-`
for a negative number. -/
def fmtD : Int → String
  | Int.ofNat n => Nat.repr n
  | Int.negSucc n => "-" ++ Nat.repr (n + 1)

/-- An operand of a formatting call. -/
inductive FmtArg where
  | str (s : String)
  | int (n : Int)
  deriving DecidableEq

/-- The fragment of `fmt.Sprintf` that `config.go` uses, on the characters of
the format: literal text is copied, `%s` consumes a string operand and `%d`
an `int` operand. Every other directive, an operand of the wrong kind, a
missing operand and a left-over operand are outside the fragment: `none`. -/
def sprintfChars : List Char → List FmtArg → Option (List Char)
  | [], [] => some []
  | [], _ :: _ => none
  | c :: fmt, args =>
    if c = '%' then
      match fmt, args with
      | v :: rest, FmtArg.str s :: args1 =>
        if v = 's' then (sprintfChars rest args1).map (fun out => s.data ++ out) else none
      | v :: rest, FmtArg.int n :: args1 =>
        if v = 'd' then (sprintfChars rest args1).map (fun out => (fmtD n).data ++ out) else none
      | _, _ => none
    else (sprintfChars fmt args).map (fun out => c :: out)

/-- The call `fmt.Sprintf(format, args...)`, within the fragment of `sprintfChars`. -/
def Sprintf (format : String) (args : List FmtArg) : Option String :=
  (sprintfChars format.data args).map String.mk

/-- The call `fmt.Errorf(format, args...)`: an error whose message is the formatted
string. The two formats of `config.go` are inside the fragment
(`Sprintf_listen_host`, `Sprintf_port_number`), so the default `""` is never taken. -/
def Errorf (format : String) (args : List FmtArg) : Option String :=
  some ((Sprintf format args).getD "")

/-! ## Data model -/

/-- Modelled from the spec: the type `Blockchain` is declared outside `config.go`;
the configuration only carries a reference to it, kept here as an address. -/
structure BlockchainRef where
  addr : Nat
  deriving DecidableEq

/-- Modelled from the spec: the type `StakePool` is declared outside `config.go`;
only a reference is carried. -/
structure StakePoolRef where
  addr : Nat
  deriving DecidableEq

/-- Modelled from the spec: the type `Mempool` is declared outside `config.go`;
only a reference is carried. -/
structure MempoolRef where
  addr : Nat
  deriving DecidableEq

/-- Modelled from the spec: the type `UTXOPool` is declared outside `config.go`;
only a reference is carried. -/
structure UTXOPoolRef where
  addr : Nat
  deriving DecidableEq

/-- TURN server configuration. -/
structure TURNConfig where
  Address : String := ""
  Username : String := ""
  Password : String := ""
  deriving DecidableEq

/-- The struct `NetworkConfig`; a field left out of a literal has Go's zero value
(a nil slice is the empty list, a nil pointer is `none`). -/
structure NetworkConfig where
  ListenHost : String := ""
  ListenPort : Int := 0
  BootstrapNodes : List String := []
  ExternalIP : String := ""
  DHTServerMode : Bool := false
  NATEnabled : Bool := false
  UPnPEnabled : Bool := false
  STUNServers : List String := []
  TURNServers : List TURNConfig := []
  Blockchain : Option BlockchainRef := none
  StakePool : Option StakePoolRef := none
  Mempool : Option MempoolRef := none
  UTXOPool : Option UTXOPoolRef := none
  deriving DecidableEq

/-- The struct `NetworkPorts`. -/
structure NetworkPorts where
  BootstrapNodeBasePort : Int := 0
  P2PBasePort : Int := 0
  RPCBasePort : Int := 0
  deriving DecidableEq

/-- A `NetworkPorts` value a Go program can hold: every field is an `int`. -/
def NetworkPorts.InRange (np : NetworkPorts) : Prop :=
  (minInt ≤ np.BootstrapNodeBasePort ∧ np.BootstrapNodeBasePort ≤ maxInt) ∧
  (minInt ≤ np.P2PBasePort ∧ np.P2PBasePort ≤ maxInt) ∧
  (minInt ≤ np.RPCBasePort ∧ np.RPCBasePort ≤ maxInt)

/-! ## Default profiles -/

def DefaultNetworkPorts : NetworkPorts :=
  { BootstrapNodeBasePort := 50500
    P2PBasePort := 51500
    RPCBasePort := 52500 }

def DefaultBootnodeConfig : NetworkConfig :=
  { ListenHost := "0.0.0.0"
    ListenPort := 50505
    BootstrapNodes := []
    ExternalIP := "49.204.110.41"
    DHTServerMode := true
    NATEnabled := true
    UPnPEnabled := true
    STUNServers := []
    TURNServers := [] }

def DefaultNetworkConfig : NetworkConfig :=
  { ListenHost := "0.0.0.0"
    ListenPort := 9000
    BootstrapNodes := []
    DHTServerMode := true
    NATEnabled := true
    UPnPEnabled := true
    STUNServers := ["stun.l.google.com:19302", "stun1.l.google.com:19302"]
    TURNServers := [] }

/-! ## Functions -/

def NetworkPorts.GetBootstrapNodePort (np : NetworkPorts) (instanceID : Int) : Int :=
  goAdd np.BootstrapNodeBasePort instanceID

def NetworkPorts.GetP2PPort (np : NetworkPorts) (instanceID : Int) : Int :=
  goAdd np.P2PBasePort instanceID

def NetworkPorts.GetRPCPort (np : NetworkPorts) (instanceID : Int) : Int :=
  goAdd np.RPCBasePort instanceID

/-- The function `NewDefaultConfig`: the struct the returned pointer refers to. -/
def NewDefaultConfig : NetworkConfig :=
  { ListenHost := "0.0.0.0"
    ListenPort := 9000
    BootstrapNodes := []
    DHTServerMode := true
    NATEnabled := true
    UPnPEnabled := true
    STUNServers := ["stun.l.google.com:19302", "stun1.l.google.com:19302"]
    TURNServers := [] }

/-- The method `GetMultiaddr`. Its format is inside the fragment of `Sprintf`
(`Sprintf_multiaddr`), so the default `""` is never taken. -/
def NetworkConfig.GetMultiaddr (c : NetworkConfig) : String :=
  (Sprintf "/ip4/%s/tcp/%d" [FmtArg.str c.ListenHost, FmtArg.int c.ListenPort]).getD ""

/-- The method `ValidateConfig`; `parseIP s` stands for `net.ParseIP(s) != nil`.
The port check is the code that follows the host check, reached when the host
check does not return. -/
def NetworkConfig.ValidateConfig (parseIP : String → Bool) (c : NetworkConfig) :
    Option String :=
  let validatePort : Option String :=
    if c.ListenPort < 0 ∨ c.ListenPort > 65535 ∨ (c.ListenPort > 0 ∧ c.ListenPort < 1024) then
      Errorf "invalid port number: %d" [FmtArg.int c.ListenPort]
    else none
  if c.ListenHost ≠ "0.0.0.0" then
    if parseIP c.ListenHost = false then
      Errorf "invalid listen host: %s" [FmtArg.str c.ListenHost]
    else validatePort
  else validatePort

/-- The call `strings.Split(s, ".")` on the characters of `s`: the pieces between
consecutive dots, one more than the number of dots. The result is never empty
(`splitDots_ne_nil`), so the first branch of the `match` is never taken. -/
def splitDots : List Char → List (List Char)
  | [] => [[]]
  | c :: cs =>
    if c = '.' then [] :: splitDots cs
    else
      match splitDots cs with
      | [] => [[c]]
      | p :: ps => (c :: p) :: ps

/-- The call `strings.Split(hostname, ".")`. -/
def Split (s : String) : List String := (splitDots s.data).map String.mk

/-- The loop of `isValidHostname` over the parts: `false` at the first part longer
than 63, `true` when the parts are exhausted. -/
def partsLoop : List String → Bool
  | [] => true
  | part :: rest => if goLen part > 63 then false else partsLoop rest

def isValidHostname (hostname : String) : Bool :=
  if goLen hostname > 255 then false else partsLoop (Split hostname)

/-! ## Memory model for the pointer returned by `NewDefaultConfig`

`NewDefaultConfig` returns `&NetworkConfig{...}`: a pointer to a new variable whose
slice fields refer to backing arrays. To speak of two results that may or may not
share memory, the struct is placed in a heap, with the state passed explicitly. -/

/-- A slice value: the address of its backing array, its length and its capacity. -/
structure Slice where
  array : Nat
  len : Nat
  cap : Nat
  deriving DecidableEq

/-- A `NetworkConfig` variable in memory: the fields of the struct, each slice field
held as a slice value. -/
structure ConfigVar where
  ListenHost : String
  ListenPort : Int
  BootstrapNodes : Slice
  ExternalIP : String
  DHTServerMode : Bool
  NATEnabled : Bool
  UPnPEnabled : Bool
  STUNServers : Slice
  TURNServers : Slice
  Blockchain : Option BlockchainRef
  StakePool : Option StakePoolRef
  Mempool : Option MempoolRef
  UTXOPool : Option UTXOPoolRef
  deriving DecidableEq

/-- The memory of a run: the next unused address, the backing arrays of `[]string`
and of `[]TURNConfig` slices by address, and the `NetworkConfig` variables by
address. -/
structure Heap where
  next : Nat
  strings : Nat → List String
  turns : Nat → List TURNConfig
  configs : Nat → Option ConfigVar

/-- The memory with nothing allocated; address 0 is kept for the arrays of size zero. -/
def Heap.empty : Heap :=
  { next := 1
    strings := fun _ => []
    turns := fun _ => []
    configs := fun _ => none }

/-- The map `f` with the value at address `a` replaced by `v`. -/
def setAt {α : Type} (f : Nat → α) (a : Nat) (v : α) : Nat → α :=
  fun b => if b = a then v else f b

/-- The function `NewDefaultConfig` on the heap: the pointer returned and the memory
after the call. The literal of `STUNServers` gets a new backing array of two
elements and `&NetworkConfig{...}` a new variable. The literals `[]string{}` and
`[]TURNConfig{}` have length and capacity 0: Go lets arrays of size zero share one
address, taken here as address 0 for every such literal. -/
def Heap.NewDefaultConfig (h : Heap) : Nat × Heap :=
  let stun := h.next
  let p := h.next + 1
  (p,
   { next := h.next + 2
     strings := setAt h.strings stun ["stun.l.google.com:19302", "stun1.l.google.com:19302"]
     turns := h.turns
     configs := setAt h.configs p (some
       { ListenHost := "0.0.0.0"
         ListenPort := 9000
         BootstrapNodes := ⟨0, 0, 0⟩
         ExternalIP := ""
         DHTServerMode := true
         NATEnabled := true
         UPnPEnabled := true
         STUNServers := ⟨stun, 2, 2⟩
         TURNServers := ⟨0, 0, 0⟩
         Blockchain := none
         StakePool := none
         Mempool := none
         UTXOPool := none }) })

/-- The struct a pointer refers to, `*p`, with every slice field read through its
backing array; `none` for an address that holds no `NetworkConfig` variable. -/
def Heap.load (h : Heap) (p : Nat) : Option NetworkConfig :=
  (h.configs p).map fun v =>
    { ListenHost := v.ListenHost
      ListenPort := v.ListenPort
      BootstrapNodes := (h.strings v.BootstrapNodes.array).take v.BootstrapNodes.len
      ExternalIP := v.ExternalIP
      DHTServerMode := v.DHTServerMode
      NATEnabled := v.NATEnabled
      UPnPEnabled := v.UPnPEnabled
      STUNServers := (h.strings v.STUNServers.array).take v.STUNServers.len
      TURNServers := (h.turns v.TURNServers.array).take v.TURNServers.len
      Blockchain := v.Blockchain
      StakePool := v.StakePool
      Mempool := v.Mempool
      UTXOPool := v.UTXOPool }

/-- The caller's statement `c.BootstrapNodes = append(c.BootstrapNodes, s)` for the
pointer `c = p`. With room left the element is written into the backing array in
place; otherwise a new array is allocated, the elements are copied and the slice
field is redirected. Go leaves the capacity of the new array to the
implementation: `grow` gives it from the length needed, and it is at least that
length. `none` when `p` holds no variable. -/
def Heap.appendBootstrapNode (grow : Nat → Nat) (h : Heap) (p : Nat) (s : String) :
    Option Heap :=
  match h.configs p with
  | none => none
  | some v =>
    let b := v.BootstrapNodes
    if b.len < b.cap then
      some
        { next := h.next
          strings := setAt h.strings b.array ((h.strings b.array).set b.len s)
          turns := h.turns
          configs := setAt h.configs p
            (some { v with BootstrapNodes := ⟨b.array, b.len + 1, b.cap⟩ }) }
    else
      let newcap := max (grow (b.len + 1)) (b.len + 1)
      some
        { next := h.next + 1
          strings := setAt h.strings h.next
            ((h.strings b.array).take b.len ++ s :: List.replicate (newcap - (b.len + 1)) "")
          turns := h.turns
          configs := setAt h.configs p
            (some { v with BootstrapNodes := ⟨h.next, b.len + 1, newcap⟩ }) }

/-- The caller's statement `c.BootstrapNodes[i] = s` for the pointer `c = p`: the
element is written into the backing array; `none` for the run-time panic of an
index out of range, and when `p` holds no variable. -/
def Heap.storeBootstrapNode (h : Heap) (p : Nat) (i : Nat) (s : String) : Option Heap :=
  match h.configs p with
  | none => none
  | some v =>
    let b := v.BootstrapNodes
    if i < b.len then
      some
        { next := h.next
          strings := setAt h.strings b.array ((h.strings b.array).set i s)
          turns := h.turns
          configs := h.configs }
    else none

/-- A mutation of the `BootstrapNodes` of a configuration: appending an element, or
overwriting the element at an index. -/
inductive Mutation where
  | append (s : String)
  | store (i : Nat) (s : String)
  deriving DecidableEq

/-- One mutation of the configuration at `p`. -/
def Heap.mutate1 (grow : Nat → Nat) (h : Heap) (p : Nat) : Mutation → Option Heap
  | Mutation.append s => h.appendBootstrapNode grow p s
  | Mutation.store i s => h.storeBootstrapNode p i s

/-- A sequence of mutations of the configuration at `p`, in order; `none` as soon as
one of them fails. -/
def Heap.mutate (grow : Nat → Nat) (p : Nat) : List Mutation → Heap → Option Heap
  | [], h => some h
  | m :: ms, h =>
    match h.mutate1 grow p m with
    | none => none
    | some h1 => Heap.mutate grow p ms h1

/-! ## Formatting lemmas -/

theorem fmtD_eval : fmtD 9000 = "9000" ∧ fmtD 80 = "80" ∧ fmtD 0 = "0" ∧ fmtD (-17) = "-17" := by
  decide

theorem Sprintf_listen_host (host : String) :
    Sprintf "invalid listen host: %s" [FmtArg.str host] =
      some ("invalid listen host: " ++ host) := by
  simp [Sprintf, sprintfChars]
  rfl

theorem Sprintf_port_number (port : Int) :
    Sprintf "invalid port number: %d" [FmtArg.int port] =
      some ("invalid port number: " ++ fmtD port) := by
  simp [Sprintf, sprintfChars]
  rfl

theorem Sprintf_multiaddr (host : String) (port : Int) :
    Sprintf "/ip4/%s/tcp/%d" [FmtArg.str host, FmtArg.int port] =
      some ("/ip4/" ++ host ++ "/tcp/" ++ fmtD port) := by
  simp [Sprintf, sprintfChars]
  apply String.ext
  simp

theorem Errorf_listen_host (host : String) :
    Errorf "invalid listen host: %s" [FmtArg.str host] =
      some ("invalid listen host: " ++ host) := by
  simp [Errorf, Sprintf_listen_host]

theorem Errorf_port_number (port : Int) :
    Errorf "invalid port number: %d" [FmtArg.int port] =
      some ("invalid port number: " ++ fmtD port) := by
  simp [Errorf, Sprintf_port_number]

/-! ## `ValidateConfig` -/

/-- The three outcomes of `ValidateConfig`, by the two checks in the order the code
makes them. -/
theorem ValidateConfig_cases (parseIP : String → Bool) (c : NetworkConfig) :
    c.ValidateConfig parseIP =
      if c.ListenHost ≠ "0.0.0.0" ∧ parseIP c.ListenHost = false then
        some ("invalid listen host: " ++ c.ListenHost)
      else if c.ListenPort < 0 ∨ c.ListenPort > 65535 ∨
          (c.ListenPort > 0 ∧ c.ListenPort < 1024) then
        some ("invalid port number: " ++ fmtD c.ListenPort)
      else none := by
  unfold NetworkConfig.ValidateConfig
  simp only [Errorf_listen_host, Errorf_port_number]
  by_cases hw : c.ListenHost = "0.0.0.0"
  · simp [hw]
  · by_cases hp : parseIP c.ListenHost = false
    · simp [hw, hp]
    · simp [hw, hp]

/-- C1. `ValidateConfig` returns no error exactly when the listen host is the
wildcard `"0.0.0.0"` or parses as an IP literal, and the listen port is `0` or
lies in `[1024, 65535]`. -/
theorem ValidateConfig_eq_none_iff (parseIP : String → Bool) (c : NetworkConfig) :
    c.ValidateConfig parseIP = none ↔
      (c.ListenHost = "0.0.0.0" ∨ parseIP c.ListenHost = true) ∧
      (c.ListenPort = 0 ∨ (1024 ≤ c.ListenPort ∧ c.ListenPort ≤ 65535)) := by
  rw [ValidateConfig_cases]
  by_cases hh : c.ListenHost ≠ "0.0.0.0" ∧ parseIP c.ListenHost = false
  · have hno : ¬ (c.ListenHost = "0.0.0.0" ∨ parseIP c.ListenHost = true) := by
      rintro (h | h)
      · exact hh.1 h
      · rw [hh.2] at h; exact Bool.noConfusion h
    simp [hh, hno]
  · have hyes : c.ListenHost = "0.0.0.0" ∨ parseIP c.ListenHost = true := by
      by_cases hw : c.ListenHost = "0.0.0.0"
      · exact Or.inl hw
      · right
        cases hp : parseIP c.ListenHost
        · exact absurd ⟨hw, hp⟩ hh
        · rfl
    rw [if_neg hh]
    by_cases hport : c.ListenPort < 0 ∨ c.ListenPort > 65535 ∨
        (c.ListenPort > 0 ∧ c.ListenPort < 1024)
    · rw [if_pos hport]
      constructor
      · intro h; exact Option.noConfusion h
      · rintro ⟨_, h⟩; omega
    · rw [if_neg hport]
      constructor
      · intro _; exact ⟨hyes, by omega⟩
      · intro _; rfl

/-- C2. A listen host that is neither the wildcard `"0.0.0.0"` nor an IP literal
is answered, whatever the listen port, by the error whose message is
`"invalid listen host: "` followed by the host. -/
theorem ValidateConfig_invalid_host (parseIP : String → Bool) (c : NetworkConfig)
    (hwild : c.ListenHost ≠ "0.0.0.0") (hparse : parseIP c.ListenHost = false) :
    c.ValidateConfig parseIP = some ("invalid listen host: " ++ c.ListenHost) := by
  rw [ValidateConfig_cases, if_pos ⟨hwild, hparse⟩]

/-- Witness of C2: the host `"example.org"` with the reserved port `80`, under a
parser that accepts one IPv4 literal only. -/
theorem ValidateConfig_invalid_host_witness :
    NetworkConfig.ValidateConfig (fun s => s == "127.0.0.1")
        { ListenHost := "example.org", ListenPort := 80 } =
      some "invalid listen host: example.org" :=
  ValidateConfig_invalid_host (fun s => s == "127.0.0.1")
    { ListenHost := "example.org", ListenPort := 80 } (by decide) (by decide)

/-- Counterexample to C3 as stated: with the reserved port `80` and the host
`"not-an-ip"`, under every parser that rejects this host (as `net.ParseIP` does),
the error returned is the invalid-listen-host error, not the invalid-port error. -/
theorem ValidateConfig_reserved_port_invalid_host :
    ((1 : Int) ≤ 80 ∧ (80 : Int) ≤ 1023) ∧
    ∀ parseIP : String → Bool, parseIP "not-an-ip" = false →
      NetworkConfig.ValidateConfig parseIP { ListenHost := "not-an-ip", ListenPort := 80 } =
          some "invalid listen host: not-an-ip" ∧
      NetworkConfig.ValidateConfig parseIP { ListenHost := "not-an-ip", ListenPort := 80 } ≠
          some ("invalid port number: " ++ fmtD 80) := by
  refine ⟨by decide, fun parseIP hp => ?_⟩
  have h : NetworkConfig.ValidateConfig parseIP { ListenHost := "not-an-ip", ListenPort := 80 } =
      some "invalid listen host: not-an-ip" := by
    rw [ValidateConfig_cases, if_pos ⟨by decide, hp⟩]
    rfl
  refine ⟨h, ?_⟩
  rw [h]
  decide

/-- C3, amended. When the listen host is valid (the wildcard or an IP literal), a
listen port in `[1, 1023]`, above `65535` or below `0` is answered by the error
whose message is `"invalid port number: "` followed by the port in decimal. -/
theorem ValidateConfig_invalid_port (parseIP : String → Bool) (c : NetworkConfig)
    (hhost : c.ListenHost = "0.0.0.0" ∨ parseIP c.ListenHost = true)
    (hport : (1 ≤ c.ListenPort ∧ c.ListenPort ≤ 1023) ∨ c.ListenPort > 65535 ∨
      c.ListenPort < 0) :
    c.ValidateConfig parseIP = some ("invalid port number: " ++ fmtD c.ListenPort) := by
  have hh : ¬ (c.ListenHost ≠ "0.0.0.0" ∧ parseIP c.ListenHost = false) := by
    rintro ⟨hw, hp⟩
    rcases hhost with h | h
    · exact hw h
    · rw [hp] at h; exact Bool.noConfusion h
  have hp : c.ListenPort < 0 ∨ c.ListenPort > 65535 ∨
      (c.ListenPort > 0 ∧ c.ListenPort < 1024) := by omega
  rw [ValidateConfig_cases, if_neg hh, if_pos hp]

/-- Witness of C3, amended: the wildcard host with port `80`, and the IP literal
`"127.0.0.1"` with port `-1`. -/
theorem ValidateConfig_invalid_port_witness :
    NetworkConfig.ValidateConfig (fun s => s == "127.0.0.1")
        { ListenHost := "0.0.0.0", ListenPort := 80 } = some "invalid port number: 80" ∧
    NetworkConfig.ValidateConfig (fun s => s == "127.0.0.1")
        { ListenHost := "127.0.0.1", ListenPort := -1 } = some "invalid port number: -1" :=
  ⟨ValidateConfig_invalid_port (fun s => s == "127.0.0.1")
      { ListenHost := "0.0.0.0", ListenPort := 80 } (Or.inl rfl) (by decide),
   ValidateConfig_invalid_port (fun s => s == "127.0.0.1")
      { ListenHost := "127.0.0.1", ListenPort := -1 } (Or.inr (by decide)) (by decide)⟩

/-! ## `NetworkPorts` -/

theorem wrapInt_of_inRange (x : Int) (hlo : minInt ≤ x) (hhi : x ≤ maxInt) : wrapInt x = x := by
  unfold minInt at hlo
  unfold maxInt at hhi
  unfold wrapInt
  omega

theorem goAdd_of_inRange (a b : Int) (hlo : minInt ≤ a + b) (hhi : a + b ≤ maxInt) :
    goAdd a b = a + b :=
  wrapInt_of_inRange (a + b) hlo hhi

/-- Counterexample to C4 as stated: the instance id `9223372036854775807`, the largest
`int`, is non-negative, and `GetP2PPort` on the default table returns the negative
number `-9223372036854724309`, which is not `51500 + instanceID`. -/
theorem GetP2PPort_overflow :
    (0 : Int) ≤ 9223372036854775807 ∧ (9223372036854775807 : Int) ≤ maxInt ∧
    DefaultNetworkPorts.GetP2PPort 9223372036854775807 = -9223372036854724309 ∧
    DefaultNetworkPorts.GetP2PPort 9223372036854775807 ≠ 51500 + 9223372036854775807 := by
  decide

/-- C4, amended. On the default table, for every instance id from `0` up to
`maxInt - 52500` the three getters return `50500`, `51500` and `52500` plus the
instance id; for every table and every instance id, a getter returns its base port
plus the instance id whenever that sum is an `int`, and in every case that sum
wrapped around into the range of `int`. -/
theorem NetworkPorts_getters (np : NetworkPorts) (instanceID : Int) :
    (0 ≤ instanceID ∧ instanceID ≤ maxInt - 52500 →
      DefaultNetworkPorts.GetP2PPort instanceID = 51500 + instanceID ∧
      DefaultNetworkPorts.GetBootstrapNodePort instanceID = 50500 + instanceID ∧
      DefaultNetworkPorts.GetRPCPort instanceID = 52500 + instanceID) ∧
    (minInt ≤ np.BootstrapNodeBasePort + instanceID ∧
        np.BootstrapNodeBasePort + instanceID ≤ maxInt →
      np.GetBootstrapNodePort instanceID = np.BootstrapNodeBasePort + instanceID) ∧
    (minInt ≤ np.P2PBasePort + instanceID ∧ np.P2PBasePort + instanceID ≤ maxInt →
      np.GetP2PPort instanceID = np.P2PBasePort + instanceID) ∧
    (minInt ≤ np.RPCBasePort + instanceID ∧ np.RPCBasePort + instanceID ≤ maxInt →
      np.GetRPCPort instanceID = np.RPCBasePort + instanceID) ∧
    np.GetBootstrapNodePort instanceID = wrapInt (np.BootstrapNodeBasePort + instanceID) ∧
    np.GetP2PPort instanceID = wrapInt (np.P2PBasePort + instanceID) ∧
    np.GetRPCPort instanceID = wrapInt (np.RPCBasePort + instanceID) := by
  refine ⟨?_, ?_, ?_, ?_, rfl, rfl, rfl⟩
  · rintro ⟨h0, h1⟩
    unfold maxInt at h1
    refine ⟨?_, ?_, ?_⟩
    · exact goAdd_of_inRange 51500 instanceID (by unfold minInt; omega) (by unfold maxInt; omega)
    · exact goAdd_of_inRange 50500 instanceID (by unfold minInt; omega) (by unfold maxInt; omega)
    · exact goAdd_of_inRange 52500 instanceID (by unfold minInt; omega) (by unfold maxInt; omega)
  · rintro ⟨hlo, hhi⟩
    exact goAdd_of_inRange _ _ hlo hhi
  · rintro ⟨hlo, hhi⟩
    exact goAdd_of_inRange _ _ hlo hhi
  · rintro ⟨hlo, hhi⟩
    exact goAdd_of_inRange _ _ hlo hhi

/-- Witness of C4, amended: instance `7` on the default table, and instance `3` on a
table with base ports `8000`, `9000` and `10000`. -/
theorem NetworkPorts_getters_witness :
    (DefaultNetworkPorts.GetP2PPort 7 = 51507 ∧
      DefaultNetworkPorts.GetBootstrapNodePort 7 = 50507 ∧
      DefaultNetworkPorts.GetRPCPort 7 = 52507) ∧
    NetworkPorts.GetP2PPort
      { BootstrapNodeBasePort := 8000, P2PBasePort := 9000, RPCBasePort := 10000 } 3 = 9003 :=
  ⟨(NetworkPorts_getters DefaultNetworkPorts 7).1 (by decide),
   (NetworkPorts_getters
      { BootstrapNodeBasePort := 8000, P2PBasePort := 9000, RPCBasePort := 10000 } 3).2.2.1
      (by decide)⟩

/-- C5. On the default table, for instance ids `i`, `j`, `k` in `[0, 999]`, the
bootstrap port of `i`, the P2P port of `j` and the RPC port of `k` are pairwise
distinct; with `i = j = k` these are the three ports of one instance. -/
theorem DefaultNetworkPorts_pairwise_distinct (i j k : Int)
    (hi : 0 ≤ i ∧ i ≤ 999) (hj : 0 ≤ j ∧ j ≤ 999) (hk : 0 ≤ k ∧ k ≤ 999) :
    DefaultNetworkPorts.GetBootstrapNodePort i ≠ DefaultNetworkPorts.GetP2PPort j ∧
    DefaultNetworkPorts.GetBootstrapNodePort i ≠ DefaultNetworkPorts.GetRPCPort k ∧
    DefaultNetworkPorts.GetP2PPort j ≠ DefaultNetworkPorts.GetRPCPort k := by
  have hb : DefaultNetworkPorts.GetBootstrapNodePort i = 50500 + i :=
    goAdd_of_inRange 50500 i (by unfold minInt; omega) (by unfold maxInt; omega)
  have hp : DefaultNetworkPorts.GetP2PPort j = 51500 + j :=
    goAdd_of_inRange 51500 j (by unfold minInt; omega) (by unfold maxInt; omega)
  have hr : DefaultNetworkPorts.GetRPCPort k = 52500 + k :=
    goAdd_of_inRange 52500 k (by unfold minInt; omega) (by unfold maxInt; omega)
  rw [hb, hp, hr]
  omega

/-- Witness of C5: the instances at the two ends of the range, `999`, `0` and `999`,
and the three ports of instance `5`. -/
theorem DefaultNetworkPorts_pairwise_distinct_witness :
    (DefaultNetworkPorts.GetBootstrapNodePort 999 ≠ DefaultNetworkPorts.GetP2PPort 0 ∧
      DefaultNetworkPorts.GetBootstrapNodePort 999 ≠ DefaultNetworkPorts.GetRPCPort 999 ∧
      DefaultNetworkPorts.GetP2PPort 0 ≠ DefaultNetworkPorts.GetRPCPort 999) ∧
    (DefaultNetworkPorts.GetBootstrapNodePort 5 ≠ DefaultNetworkPorts.GetP2PPort 5 ∧
      DefaultNetworkPorts.GetBootstrapNodePort 5 ≠ DefaultNetworkPorts.GetRPCPort 5 ∧
      DefaultNetworkPorts.GetP2PPort 5 ≠ DefaultNetworkPorts.GetRPCPort 5) :=
  ⟨DefaultNetworkPorts_pairwise_distinct 999 0 999 (by decide) (by decide) (by decide),
   DefaultNetworkPorts_pairwise_distinct 5 5 5 (by decide) (by decide) (by decide)⟩

/-! ## `GetMultiaddr` and the default profiles -/

/-- C6. `GetMultiaddr` returns `"/ip4/"`, the listen host, `"/tcp/"` and the listen
port in decimal, one after the other, for every configuration, valid or not; for
the host `"127.0.0.1"` and the port `9000` this is `"/ip4/127.0.0.1/tcp/9000"`. -/
theorem GetMultiaddr_eq (c : NetworkConfig) :
    c.GetMultiaddr = "/ip4/" ++ c.ListenHost ++ "/tcp/" ++ fmtD c.ListenPort ∧
    NetworkConfig.GetMultiaddr { ListenHost := "127.0.0.1", ListenPort := 9000 } =
      "/ip4/127.0.0.1/tcp/9000" ∧
    NetworkConfig.GetMultiaddr { ListenHost := "no host", ListenPort := -80 } =
      "/ip4/no host/tcp/-80" := by
  refine ⟨?_, by decide, by decide⟩
  unfold NetworkConfig.GetMultiaddr
  rw [Sprintf_multiaddr]
  rfl

/-- C7. The standard-peer default, as the constant `DefaultNetworkConfig` and as the
value of `NewDefaultConfig`, has host `"0.0.0.0"` and port `9000` and passes
`ValidateConfig`; the host being the wildcard, the IP parser is not consulted. -/
theorem ValidateConfig_standard_default (parseIP : String → Bool) :
    (DefaultNetworkConfig.ListenHost = "0.0.0.0" ∧ DefaultNetworkConfig.ListenPort = 9000 ∧
      DefaultNetworkConfig.ValidateConfig parseIP = none) ∧
    (NewDefaultConfig.ListenHost = "0.0.0.0" ∧ NewDefaultConfig.ListenPort = 9000 ∧
      NewDefaultConfig.ValidateConfig parseIP = none) := by
  refine ⟨⟨rfl, rfl, ?_⟩, ⟨rfl, rfl, ?_⟩⟩
  · rw [ValidateConfig_cases, if_neg (fun h => h.1 rfl), if_neg (by decide)]
  · rw [ValidateConfig_cases, if_neg (fun h => h.1 rfl), if_neg (by decide)]

/-- C8. The bootstrap default `DefaultBootnodeConfig` has host `"0.0.0.0"` and port
`50505` and passes `ValidateConfig`. -/
theorem ValidateConfig_bootnode_default (parseIP : String → Bool) :
    DefaultBootnodeConfig.ListenHost = "0.0.0.0" ∧ DefaultBootnodeConfig.ListenPort = 50505 ∧
    DefaultBootnodeConfig.ValidateConfig parseIP = none := by
  refine ⟨rfl, rfl, ?_⟩
  rw [ValidateConfig_cases, if_neg (fun h => h.1 rfl), if_neg (by decide)]

/-- C9. Two configurations with the same listen host and the same listen port get
the same result from `ValidateConfig`, whatever their other fields hold. -/
theorem ValidateConfig_depends_on_host_port (parseIP : String → Bool)
    (c1 c2 : NetworkConfig) (hhost : c1.ListenHost = c2.ListenHost)
    (hport : c1.ListenPort = c2.ListenPort) :
    c1.ValidateConfig parseIP = c2.ValidateConfig parseIP := by
  unfold NetworkConfig.ValidateConfig
  rw [hhost, hport]

/-- Witness of C9: the bootstrap default and a bare configuration with the same host
and port, which differ in the external IP, the flags and a subsystem reference. -/
theorem ValidateConfig_depends_on_host_port_witness :
    DefaultBootnodeConfig ≠
      { ListenHost := "0.0.0.0", ListenPort := 50505, BootstrapNodes := ["10.0.0.1:9000"],
        TURNServers := [{ Address := "turn:3478", Username := "u", Password := "p" }],
        Mempool := some ⟨1⟩ } ∧
    DefaultBootnodeConfig.ValidateConfig (fun s => s == "127.0.0.1") =
      NetworkConfig.ValidateConfig (fun s => s == "127.0.0.1")
        { ListenHost := "0.0.0.0", ListenPort := 50505, BootstrapNodes := ["10.0.0.1:9000"],
          TURNServers := [{ Address := "turn:3478", Username := "u", Password := "p" }],
          Mempool := some ⟨1⟩ } :=
  ⟨by decide,
   ValidateConfig_depends_on_host_port (fun s => s == "127.0.0.1") DefaultBootnodeConfig
    { ListenHost := "0.0.0.0", ListenPort := 50505, BootstrapNodes := ["10.0.0.1:9000"],
      TURNServers := [{ Address := "turn:3478", Username := "u", Password := "p" }],
      Mempool := some ⟨1⟩ } rfl rfl⟩

/-! ## `isValidHostname` -/

theorem partsLoop_eq_true_iff (parts : List String) :
    partsLoop parts = true ↔ ∀ part ∈ parts, goLen part ≤ 63 := by
  induction parts with
  | nil => simp [partsLoop]
  | cons part rest ih =>
    unfold partsLoop
    by_cases h : goLen part > 63
    · simp only [if_pos h, List.mem_cons, forall_eq_or_imp]
      constructor
      · intro hf; exact Bool.noConfusion hf
      · rintro ⟨h1, _⟩; omega
    · simp only [if_neg h, List.mem_cons, forall_eq_or_imp, ih]
      constructor
      · intro hr; exact ⟨by omega, hr⟩
      · rintro ⟨_, hr⟩; exact hr

theorem utf8Size_of_ascii (c : Char) (h : c.toNat < 128) : c.utf8Size = 1 := by
  have hle : c.val ≤ UInt32.ofNatCore 127 (by decide) := by
    show c.val.toNat ≤ 127
    have hval : c.val.toNat = c.toNat := rfl
    omega
  unfold Char.utf8Size
  exact if_pos hle

theorem utf8ByteSize_go_of_ascii (cs : List Char) (h : ∀ c ∈ cs, c.toNat < 128) :
    String.utf8ByteSize.go cs = cs.length := by
  induction cs with
  | nil => rfl
  | cons c cs ih =>
    simp only [String.utf8ByteSize.go, List.length_cons]
    rw [ih (fun d hd => h d (List.mem_cons_of_mem c hd)), utf8Size_of_ascii c (h c (List.mem_cons_self c cs))]

theorem goLen_of_ascii (s : String) (h : ∀ c ∈ s.data, c.toNat < 128) : goLen s = s.length := by
  cases s with
  | mk cs => exact utf8ByteSize_go_of_ascii cs h

/-! The model of `strings.Split(s, ".")`: there is at least one part, a part holds no dot and is made
of characters of `s`, and joined by dots give `s` back. -/

theorem splitDots_ne_nil (cs : List Char) : splitDots cs ≠ [] := by
  cases cs with
  | nil => simp [splitDots]
  | cons c cs =>
    unfold splitDots
    split
    · simp
    · split <;> simp

theorem mem_of_mem_splitDots (cs : List Char) :
    ∀ p ∈ splitDots cs, ∀ c ∈ p, c ∈ cs ∧ c ≠ '.' := by
  induction cs with
  | nil => simp [splitDots]
  | cons d ds ih =>
    intro p hp c hc
    unfold splitDots at hp
    by_cases hd : d = '.'
    · rw [if_pos hd] at hp
      rcases List.mem_cons.1 hp with h | h
      · subst h; simp at hc
      · exact ⟨List.mem_cons_of_mem d (ih p h c hc).1, (ih p h c hc).2⟩
    · rw [if_neg hd] at hp
      cases hs : splitDots ds with
      | nil => exact absurd hs (splitDots_ne_nil ds)
      | cons q qs =>
        rw [hs] at hp ih
        simp only at hp
        rcases List.mem_cons.1 hp with h | h
        · subst h
          rcases List.mem_cons.1 hc with h2 | h2
          · subst h2; exact ⟨List.mem_cons_self _ _, hd⟩
          · have := ih q (List.mem_cons_self q qs) c h2
            exact ⟨List.mem_cons_of_mem d this.1, this.2⟩
        · have := ih p (List.mem_cons_of_mem q h) c hc
          exact ⟨List.mem_cons_of_mem d this.1, this.2⟩

theorem splitDots_join (cs : List Char) : List.intercalate ['.'] (splitDots cs) = cs := by
  induction cs with
  | nil => simp [splitDots, List.intercalate]
  | cons d ds ih =>
    unfold splitDots
    by_cases hd : d = '.'
    · rw [if_pos hd]
      cases hs : splitDots ds with
      | nil => exact absurd hs (splitDots_ne_nil ds)
      | cons q qs =>
        rw [hs] at ih
        rw [hd]
        simp [List.intercalate] at ih ⊢
        exact ih
    · rw [if_neg hd]
      cases hs : splitDots ds with
      | nil => exact absurd hs (splitDots_ne_nil ds)
      | cons q qs =>
        rw [hs] at ih
        simp [List.intercalate] at ih ⊢
        cases qs with
        | nil => simpa using ih
        | cons r rs => simpa using ih

theorem Split_mem_ascii (hostname part : String) (hascii : ∀ c ∈ hostname.data, c.toNat < 128)
    (hpart : part ∈ Split hostname) : ∀ c ∈ part.data, c.toNat < 128 := by
  unfold Split at hpart
  rcases List.mem_map.1 hpart with ⟨p, hp, rfl⟩
  intro c hc
  exact hascii c (mem_of_mem_splitDots hostname.data p hp c hc).1

theorem isValidHostname_bytes (hostname : String) :
    isValidHostname hostname = true ↔
      goLen hostname ≤ 255 ∧ ∀ part ∈ Split hostname, goLen part ≤ 63 := by
  unfold isValidHostname
  by_cases h : goLen hostname > 255
  · rw [if_pos h]
    constructor
    · intro hf; exact Bool.noConfusion hf
    · rintro ⟨h1, _⟩; omega
  · rw [if_neg h, partsLoop_eq_true_iff]
    constructor
    · intro hr; exact ⟨by omega, hr⟩
    · rintro ⟨_, hr⟩; exact hr

/-- Counterexample to C10 as stated: the string of 32 letters `é` has 32 characters
and one label, of 32 characters, so it is within both limits counted in
characters; each `é` takes two bytes, the label has `len` 64, and `isValidHostname`
returns `false`. -/
theorem isValidHostname_multibyte :
    (String.mk (List.replicate 32 'é')).length = 32 ∧
    Split (String.mk (List.replicate 32 'é')) = [String.mk (List.replicate 32 'é')] ∧
    goLen (String.mk (List.replicate 32 'é')) = 64 ∧
    isValidHostname (String.mk (List.replicate 32 'é')) = false ∧
    ¬ (isValidHostname (String.mk (List.replicate 32 'é')) = true ↔
        (String.mk (List.replicate 32 'é')).length ≤ 255 ∧
        ∀ part ∈ Split (String.mk (List.replicate 32 'é')), part.length ≤ 63) := by
  decide

/-- C10, amended. `isValidHostname` returns `true` exactly when the hostname has at
most 255 bytes (Go's `len`) and every part of its split on `"."` has at most 63
bytes; the characters themselves are not examined. For a hostname of ASCII
characters, one byte each, the limits are 255 and 63 characters. -/
theorem isValidHostname_eq_true_iff (hostname : String) :
    (isValidHostname hostname = true ↔
      goLen hostname ≤ 255 ∧ ∀ part ∈ Split hostname, goLen part ≤ 63) ∧
    ((∀ c ∈ hostname.data, c.toNat < 128) →
      (isValidHostname hostname = true ↔
        hostname.length ≤ 255 ∧ ∀ part ∈ Split hostname, part.length ≤ 63)) := by
  refine ⟨isValidHostname_bytes hostname, fun hascii => ?_⟩
  rw [isValidHostname_bytes, goLen_of_ascii hostname hascii]
  constructor
  · rintro ⟨h1, h2⟩
    refine ⟨h1, fun part hpart => ?_⟩
    rw [← goLen_of_ascii part (Split_mem_ascii hostname part hascii hpart)]
    exact h2 part hpart
  · rintro ⟨h1, h2⟩
    refine ⟨h1, fun part hpart => ?_⟩
    rw [goLen_of_ascii part (Split_mem_ascii hostname part hascii hpart)]
    exact h2 part hpart

/-- Witness of C10, amended: the ASCII hostname `"node-1.example.com"`, accepted, and
`"_$ !.-"`, accepted although it is no DNS name. -/
theorem isValidHostname_eq_true_iff_witness :
    (isValidHostname "node-1.example.com" = true ↔
      "node-1.example.com".length ≤ 255 ∧
        ∀ part ∈ Split "node-1.example.com", part.length ≤ 63) ∧
    (isValidHostname "_$ !.-" = true ↔
      goLen "_$ !.-" ≤ 255 ∧ ∀ part ∈ Split "_$ !.-", goLen part ≤ 63) ∧
    isValidHostname "_$ !.-" = true :=
  ⟨(isValidHostname_eq_true_iff "node-1.example.com").2 (by decide),
   (isValidHostname_eq_true_iff "_$ !.-").1, by decide⟩

/-! ## The default profiles, field by field -/

/-- C11. `NewDefaultConfig` returns the standard-peer default: host `"0.0.0.0"`,
port `9000`, the three flags on, the two STUN servers in order, no bootstrap node,
no TURN server, no external IP and no subsystem reference. The value equals the
constant `DefaultNetworkConfig`, and it is the struct the returned pointer refers
to, whatever the memory before the call. -/
theorem NewDefaultConfig_eq_standard_default (h : Heap) :
    NewDefaultConfig =
      { ListenHost := "0.0.0.0", ListenPort := 9000, BootstrapNodes := [], ExternalIP := "",
        DHTServerMode := true, NATEnabled := true, UPnPEnabled := true,
        STUNServers := ["stun.l.google.com:19302", "stun1.l.google.com:19302"],
        TURNServers := [], Blockchain := none, StakePool := none, Mempool := none,
        UTXOPool := none } ∧
    NewDefaultConfig.STUNServers.length = 2 ∧
    NewDefaultConfig = DefaultNetworkConfig ∧
    (h.NewDefaultConfig).2.load (h.NewDefaultConfig).1 = some NewDefaultConfig := by
  refine ⟨rfl, rfl, rfl, ?_⟩
  simp [Heap.load, Heap.NewDefaultConfig, setAt, NewDefaultConfig]

/-- C12. `DefaultBootnodeConfig` is the bootstrap default: host `"0.0.0.0"`, port
`50505`, the external IP `"49.204.110.41"`, not empty, the three flags on, and no
STUN server, TURN server or bootstrap node. -/
theorem DefaultBootnodeConfig_fields :
    DefaultBootnodeConfig =
      { ListenHost := "0.0.0.0", ListenPort := 50505, BootstrapNodes := [],
        ExternalIP := "49.204.110.41", DHTServerMode := true, NATEnabled := true,
        UPnPEnabled := true, STUNServers := [], TURNServers := [], Blockchain := none,
        StakePool := none, Mempool := none, UTXOPool := none } ∧
    DefaultBootnodeConfig.ExternalIP ≠ "" :=
  ⟨rfl, by decide⟩

/-! ## Independence of the results of `NewDefaultConfig` -/

theorem setAt_same {α : Type} (f : Nat → α) (a : Nat) (v : α) : setAt f a v a = v := by
  simp [setAt]

theorem setAt_other {α : Type} (f : Nat → α) (a b : Nat) (v : α) (hne : b ≠ a) :
    setAt f a v b = f b := by
  simp [setAt, hne]

/-- One mutation of the configuration at `p` writes only the variable at `p` and
backing arrays at addresses from `N` on, as long as the slice field of `p` either
has capacity 0 or refers to such an array; and this is kept by the mutation. -/
theorem mutate1_frame (grow : Nat → Nat) (p N : Nat) (m : Mutation) (h h1 : Heap)
    (hN : N ≤ h.next)
    (hp : ∃ v, h.configs p = some v ∧
      ((v.BootstrapNodes.cap = 0 ∧ v.BootstrapNodes.len = 0) ∨ N ≤ v.BootstrapNodes.array))
    (hm : h.mutate1 grow p m = some h1) :
    (N ≤ h1.next ∧ ∃ v, h1.configs p = some v ∧
      ((v.BootstrapNodes.cap = 0 ∧ v.BootstrapNodes.len = 0) ∨ N ≤ v.BootstrapNodes.array)) ∧
    (∀ q, q ≠ p → h1.configs q = h.configs q) ∧
    (∀ a, a < N → h1.strings a = h.strings a) ∧
    h1.turns = h.turns := by
  obtain ⟨v, hv, hb⟩ := hp
  cases m with
  | append s =>
    simp only [Heap.mutate1, Heap.appendBootstrapNode, hv] at hm
    by_cases hroom : v.BootstrapNodes.len < v.BootstrapNodes.cap
    · rw [if_pos hroom] at hm
      have hmem : N ≤ v.BootstrapNodes.array := by
        rcases hb with ⟨hc, hl⟩ | hb
        · omega
        · exact hb
      injection hm with hm
      subst hm
      refine ⟨⟨hN, _, setAt_same _ _ _, Or.inr hmem⟩, ?_, ?_, rfl⟩
      · intro q hq; exact setAt_other _ _ _ _ hq
      · intro a ha
        exact setAt_other _ _ _ _ (by omega)
    · rw [if_neg hroom] at hm
      injection hm with hm
      subst hm
      refine ⟨⟨Nat.le_succ_of_le hN, _, setAt_same _ _ _, Or.inr hN⟩, ?_, ?_, rfl⟩
      · intro q hq; exact setAt_other _ _ _ _ hq
      · intro a ha
        exact setAt_other _ _ _ _ (by omega)
  | store i s =>
    simp only [Heap.mutate1, Heap.storeBootstrapNode, hv] at hm
    by_cases hi : i < v.BootstrapNodes.len
    · rw [if_pos hi] at hm
      have hmem : N ≤ v.BootstrapNodes.array := by
        rcases hb with ⟨hc, hl⟩ | hb
        · omega
        · exact hb
      injection hm with hm
      subst hm
      refine ⟨⟨hN, v, hv, Or.inr hmem⟩, ?_, ?_, rfl⟩
      · intro q _; rfl
      · intro a ha
        exact setAt_other _ _ _ _ (by omega)
    · rw [if_neg hi] at hm
      exact Option.noConfusion hm

/-- A sequence of mutations of the configuration at `p` leaves every other variable,
every backing array below `N` and every `TURNConfig` array as it was. -/
theorem mutate_frame (grow : Nat → Nat) (p N : Nat) (ms : List Mutation) :
    ∀ (h h1 : Heap), N ≤ h.next →
      (∃ v, h.configs p = some v ∧
        ((v.BootstrapNodes.cap = 0 ∧ v.BootstrapNodes.len = 0) ∨ N ≤ v.BootstrapNodes.array)) →
      Heap.mutate grow p ms h = some h1 →
      (∀ q, q ≠ p → h1.configs q = h.configs q) ∧
      (∀ a, a < N → h1.strings a = h.strings a) ∧
      h1.turns = h.turns := by
  induction ms with
  | nil =>
    intro h h1 _ _ hm
    simp only [Heap.mutate] at hm
    injection hm with hm
    subst hm
    exact ⟨fun _ _ => rfl, fun _ _ => rfl, rfl⟩
  | cons m ms ih =>
    intro h h1 hN hp hm
    simp only [Heap.mutate] at hm
    cases hstep : h.mutate1 grow p m with
    | none => rw [hstep] at hm; exact Option.noConfusion hm
    | some h2 =>
      rw [hstep] at hm
      obtain ⟨⟨hN2, hp2⟩, hc, hs, ht⟩ := mutate1_frame grow p N m h h2 hN hp hstep
      obtain ⟨hc1, hs1, ht1⟩ := ih h2 h1 hN2 hp2 hm
      refine ⟨fun q hq => ?_, fun a ha => ?_, ?_⟩
      · rw [hc1 q hq, hc q hq]
      · rw [hs1 a ha, hs a ha]
      · rw [ht1, ht]

theorem load_default (h : Heap) (p stun : Nat)
    (hv : h.configs p = some
      { ListenHost := "0.0.0.0", ListenPort := 9000, BootstrapNodes := ⟨0, 0, 0⟩,
        ExternalIP := "", DHTServerMode := true, NATEnabled := true, UPnPEnabled := true,
        STUNServers := ⟨stun, 2, 2⟩, TURNServers := ⟨0, 0, 0⟩, Blockchain := none,
        StakePool := none, Mempool := none, UTXOPool := none })
    (hs : h.strings stun = ["stun.l.google.com:19302", "stun1.l.google.com:19302"]) :
    h.load p = some NewDefaultConfig := by
  simp [Heap.load, hv, hs, NewDefaultConfig]

theorem NewDefaultConfig_twice (h : Heap) :
    (h.NewDefaultConfig).1 = h.next + 1 ∧
    ((h.NewDefaultConfig).2.NewDefaultConfig).1 = h.next + 3 ∧
    ((h.NewDefaultConfig).2.NewDefaultConfig).2.next = h.next + 4 ∧
    ((h.NewDefaultConfig).2.NewDefaultConfig).2.configs (h.next + 1) = some
      { ListenHost := "0.0.0.0", ListenPort := 9000, BootstrapNodes := ⟨0, 0, 0⟩,
        ExternalIP := "", DHTServerMode := true, NATEnabled := true, UPnPEnabled := true,
        STUNServers := ⟨h.next, 2, 2⟩, TURNServers := ⟨0, 0, 0⟩, Blockchain := none,
        StakePool := none, Mempool := none, UTXOPool := none } ∧
    ((h.NewDefaultConfig).2.NewDefaultConfig).2.configs (h.next + 3) = some
      { ListenHost := "0.0.0.0", ListenPort := 9000, BootstrapNodes := ⟨0, 0, 0⟩,
        ExternalIP := "", DHTServerMode := true, NATEnabled := true, UPnPEnabled := true,
        STUNServers := ⟨h.next + 2, 2, 2⟩, TURNServers := ⟨0, 0, 0⟩, Blockchain := none,
        StakePool := none, Mempool := none, UTXOPool := none } ∧
    ((h.NewDefaultConfig).2.NewDefaultConfig).2.strings h.next =
      ["stun.l.google.com:19302", "stun1.l.google.com:19302"] ∧
    ((h.NewDefaultConfig).2.NewDefaultConfig).2.strings (h.next + 2) =
      ["stun.l.google.com:19302", "stun1.l.google.com:19302"] := by
  refine ⟨rfl, rfl, rfl, ?_, ?_, ?_, ?_⟩
  · simp [Heap.NewDefaultConfig, setAt]
  · simp [Heap.NewDefaultConfig, setAt]
  · simp [Heap.NewDefaultConfig, setAt]
  · simp [Heap.NewDefaultConfig, setAt]

theorem append_takes_effect (grow : Nat → Nat) (h : Heap) (s : String) :
    ∃ h3, Heap.mutate grow (h.NewDefaultConfig).1 [Mutation.append s]
        ((h.NewDefaultConfig).2.NewDefaultConfig).2 = some h3 ∧
      h3.load (h.NewDefaultConfig).1 = some { NewDefaultConfig with BootstrapNodes := [s] } := by
  have hne : h.next ≠ h.next + 2 + 2 := by omega
  simp [hne, Heap.mutate, Heap.mutate1, Heap.appendBootstrapNode, Heap.load, Heap.NewDefaultConfig,
    setAt, NewDefaultConfig]

/-- C13. Two calls of `NewDefaultConfig` return different pointers, each to the
standard-peer default. After any sequence of appends to and overwrites of the
`BootstrapNodes` of one of them that runs without a panic, the other still holds
the default in every field, `BootstrapNodes` included; and an append to the first
does change the first. The capacity policy `grow` of `append` is arbitrary. -/
theorem NewDefaultConfig_independent (grow : Nat → Nat) (h : Heap) (ms : List Mutation) :
    (h.NewDefaultConfig).1 ≠ ((h.NewDefaultConfig).2.NewDefaultConfig).1 ∧
    ((h.NewDefaultConfig).2.NewDefaultConfig).2.load (h.NewDefaultConfig).1 =
      some NewDefaultConfig ∧
    ((h.NewDefaultConfig).2.NewDefaultConfig).2.load ((h.NewDefaultConfig).2.NewDefaultConfig).1 =
      some NewDefaultConfig ∧
    (∀ h3, Heap.mutate grow (h.NewDefaultConfig).1 ms ((h.NewDefaultConfig).2.NewDefaultConfig).2 =
        some h3 →
      h3.load ((h.NewDefaultConfig).2.NewDefaultConfig).1 = some NewDefaultConfig) ∧
    (∀ h3, Heap.mutate grow ((h.NewDefaultConfig).2.NewDefaultConfig).1 ms
        ((h.NewDefaultConfig).2.NewDefaultConfig).2 = some h3 →
      h3.load (h.NewDefaultConfig).1 = some NewDefaultConfig) ∧
    (∀ s : String, ∃ h3, Heap.mutate grow (h.NewDefaultConfig).1 [Mutation.append s]
        ((h.NewDefaultConfig).2.NewDefaultConfig).2 = some h3 ∧
      h3.load (h.NewDefaultConfig).1 = some { NewDefaultConfig with BootstrapNodes := [s] }) := by
  obtain ⟨hp1, hp2, hnext, hc1, hc2, hs1, hs2⟩ := NewDefaultConfig_twice h
  rw [hp1, hp2]
  refine ⟨by omega, load_default _ _ _ hc1 hs1, load_default _ _ _ hc2 hs2, ?_, ?_,
    fun s => hp1 ▸ append_takes_effect grow h s⟩
  · intro h3 hm
    obtain ⟨hc, hs, _⟩ := mutate_frame grow (h.next + 1) (h.next + 4) ms _ h3
      (by rw [hnext]) ⟨_, hc1, Or.inl ⟨rfl, rfl⟩⟩ hm
    refine load_default h3 _ (h.next + 2) ?_ ?_
    · rw [hc (h.next + 3) (by omega)]; exact hc2
    · rw [hs (h.next + 2) (by omega)]; exact hs2
  · intro h3 hm
    obtain ⟨hc, hs, _⟩ := mutate_frame grow (h.next + 3) (h.next + 4) ms _ h3
      (by rw [hnext]) ⟨_, hc2, Or.inl ⟨rfl, rfl⟩⟩ hm
    refine load_default h3 _ h.next ?_ ?_
    · rw [hc (h.next + 1) (by omega)]; exact hc1
    · rw [hs h.next (by omega)]; exact hs1

/-- Witness of C13: from the empty memory, the first configuration is at address 2
and the second at 4; an append, an overwrite of element 0 and a second append on
the first run without a panic and leave it with the nodes `"b"` and `"c"`, while
the second still holds the default. -/
theorem NewDefaultConfig_independent_witness :
    ∃ h3, Heap.mutate (fun n => 2 * n) 2
        [Mutation.append "a", Mutation.store 0 "b", Mutation.append "c"]
        ((Heap.empty.NewDefaultConfig).2.NewDefaultConfig).2 = some h3 ∧
      (h3.load 2).map (fun c => c.BootstrapNodes) = some ["b", "c"] ∧
      h3.load 4 = some NewDefaultConfig := by
  have hs : (Heap.mutate (fun n => 2 * n) 2
      [Mutation.append "a", Mutation.store 0 "b", Mutation.append "c"]
      ((Heap.empty.NewDefaultConfig).2.NewDefaultConfig).2).isSome = true := by decide
  refine ⟨Option.get _ hs, (Option.some_get hs).symm, ?_, ?_⟩
  · rfl
  exact (NewDefaultConfig_independent (fun n => 2 * n) Heap.empty
    [Mutation.append "a", Mutation.store 0 "b", Mutation.append "c"]).2.2.2.1 _
    (Option.some_get hs).symm

/-! ## Order of the two checks of `ValidateConfig` -/

/-- The two error messages of `ValidateConfig` never coincide: they differ at their
ninth character. -/
theorem host_msg_ne_port_msg (host s : String) :
    "invalid listen host: " ++ host ≠ "invalid port number: " ++ s := by
  intro heq
  have hd := congrArg String.data heq
  simp at hd

/-- C14. With an invalid listen host (neither `"0.0.0.0"` nor an IP literal) and an
invalid listen port (in `[1, 1023]`, above `65535` or negative), `ValidateConfig`
returns the invalid-listen-host error and no invalid-port error, although the same
port with the wildcard host gives the invalid-port error; and whenever a
configuration gets an invalid-port error, its host is valid. -/
theorem ValidateConfig_host_before_port (parseIP : String → Bool) (c : NetworkConfig)
    (hwild : c.ListenHost ≠ "0.0.0.0") (hparse : parseIP c.ListenHost = false)
    (hport : (1 ≤ c.ListenPort ∧ c.ListenPort ≤ 1023) ∨ c.ListenPort > 65535 ∨
      c.ListenPort < 0) :
    c.ValidateConfig parseIP = some ("invalid listen host: " ++ c.ListenHost) ∧
    (∀ s : String, c.ValidateConfig parseIP ≠ some ("invalid port number: " ++ s)) ∧
    NetworkConfig.ValidateConfig parseIP { c with ListenHost := "0.0.0.0" } =
      some ("invalid port number: " ++ fmtD c.ListenPort) ∧
    (∀ (d : NetworkConfig) (s : String),
      d.ValidateConfig parseIP = some ("invalid port number: " ++ s) →
        d.ListenHost = "0.0.0.0" ∨ parseIP d.ListenHost = true) := by
  have hres : c.ValidateConfig parseIP = some ("invalid listen host: " ++ c.ListenHost) := by
    rw [ValidateConfig_cases, if_pos ⟨hwild, hparse⟩]
  refine ⟨hres, ?_, ?_, ?_⟩
  · intro s hs
    rw [hres] at hs
    exact host_msg_ne_port_msg c.ListenHost s (Option.some.inj hs)
  · have hp : c.ListenPort < 0 ∨ c.ListenPort > 65535 ∨
        (c.ListenPort > 0 ∧ c.ListenPort < 1024) := by omega
    rw [ValidateConfig_cases, if_neg (fun h => h.1 rfl), if_pos hp]
  · intro d s hd
    by_cases hh : d.ListenHost ≠ "0.0.0.0" ∧ parseIP d.ListenHost = false
    · rw [ValidateConfig_cases, if_pos hh] at hd
      exact absurd (Option.some.inj hd) (host_msg_ne_port_msg d.ListenHost s)
    · by_cases hw : d.ListenHost = "0.0.0.0"
      · exact Or.inl hw
      · right
        cases hp : parseIP d.ListenHost
        · exact absurd ⟨hw, hp⟩ hh
        · rfl

/-- Witness of C14: the host `"not-an-ip"` with the reserved port `22`. -/
theorem ValidateConfig_host_before_port_witness :
    NetworkConfig.ValidateConfig (fun s => s == "127.0.0.1")
        { ListenHost := "not-an-ip", ListenPort := 22 } =
      some "invalid listen host: not-an-ip" ∧
    NetworkConfig.ValidateConfig (fun s => s == "127.0.0.1")
        { ListenHost := "0.0.0.0", ListenPort := 22 } = some "invalid port number: 22" :=
  ⟨(ValidateConfig_host_before_port (fun s => s == "127.0.0.1")
      { ListenHost := "not-an-ip", ListenPort := 22 } (by decide) (by decide) (by decide)).1,
   (ValidateConfig_host_before_port (fun s => s == "127.0.0.1")
      { ListenHost := "not-an-ip", ListenPort := 22 } (by decide) (by decide) (by decide)).2.2.1⟩

/-! ## The default port table beyond its properties of distinctness -/

/-- C15. The range `[0, 999]` is tight: on the default table the bootstrap port of
instance `1000` is the P2P port of instance `0`, namely `51500`, and the P2P port
of instance `1000` is the RPC port of instance `0`, namely `52500`. -/
theorem DefaultNetworkPorts_collision_at_1000 :
    DefaultNetworkPorts.GetBootstrapNodePort 1000 = DefaultNetworkPorts.GetP2PPort 0 ∧
    DefaultNetworkPorts.GetP2PPort 1000 = DefaultNetworkPorts.GetRPCPort 0 ∧
    DefaultNetworkPorts.GetBootstrapNodePort 1000 = 51500 ∧
    DefaultNetworkPorts.GetP2PPort 1000 = 52500 := by
  decide

/-- C16. For an instance id in `[0, 999]`, a configuration with the wildcard host
whose listen port is the bootstrap, P2P or RPC port derived from the default table
passes `ValidateConfig`, and that port lies in `[1024, 65535]`. -/
theorem ValidateConfig_derived_port (parseIP : String → Bool) (c : NetworkConfig)
    (instanceID : Int) (hid : 0 ≤ instanceID ∧ instanceID ≤ 999)
    (hhost : c.ListenHost = "0.0.0.0")
    (hport : c.ListenPort = DefaultNetworkPorts.GetBootstrapNodePort instanceID ∨
      c.ListenPort = DefaultNetworkPorts.GetP2PPort instanceID ∨
      c.ListenPort = DefaultNetworkPorts.GetRPCPort instanceID) :
    c.ValidateConfig parseIP = none ∧ 1024 ≤ c.ListenPort ∧ c.ListenPort ≤ 65535 := by
  have hb : DefaultNetworkPorts.GetBootstrapNodePort instanceID = 50500 + instanceID :=
    goAdd_of_inRange 50500 instanceID (by unfold minInt; omega) (by unfold maxInt; omega)
  have hp : DefaultNetworkPorts.GetP2PPort instanceID = 51500 + instanceID :=
    goAdd_of_inRange 51500 instanceID (by unfold minInt; omega) (by unfold maxInt; omega)
  have hr : DefaultNetworkPorts.GetRPCPort instanceID = 52500 + instanceID :=
    goAdd_of_inRange 52500 instanceID (by unfold minInt; omega) (by unfold maxInt; omega)
  rw [hb, hp, hr] at hport
  have hrange : 1024 ≤ c.ListenPort ∧ c.ListenPort ≤ 65535 := by omega
  refine ⟨?_, hrange⟩
  rw [ValidateConfig_cases, if_neg (fun h => h.1 hhost), if_neg (by omega)]

/-- Witness of C16: the RPC port of instance `999`, the largest port derived, `53499`. -/
theorem ValidateConfig_derived_port_witness :
    DefaultNetworkPorts.GetRPCPort 999 = 53499 ∧
    NetworkConfig.ValidateConfig (fun s => s == "127.0.0.1")
      { ListenHost := "0.0.0.0", ListenPort := 53499 } = none :=
  ⟨by decide,
   (ValidateConfig_derived_port (fun s => s == "127.0.0.1")
      { ListenHost := "0.0.0.0", ListenPort := 53499 } 999 (by decide) rfl
      (Or.inr (Or.inr (by decide)))).1⟩

/-- C17. For every table of base ports and two different instance ids, both of
them `int` values, each getter returns two different ports: adding the base port
is injective also when the sum wraps around. -/
theorem NetworkPorts_getters_injective (np : NetworkPorts) (i j : Int)
    (hi : minInt ≤ i ∧ i ≤ maxInt) (hj : minInt ≤ j ∧ j ≤ maxInt) (hne : i ≠ j) :
    np.GetP2PPort i ≠ np.GetP2PPort j ∧
    np.GetBootstrapNodePort i ≠ np.GetBootstrapNodePort j ∧
    np.GetRPCPort i ≠ np.GetRPCPort j := by
  unfold minInt maxInt at hi hj
  simp only [NetworkPorts.GetP2PPort, NetworkPorts.GetBootstrapNodePort,
    NetworkPorts.GetRPCPort, goAdd, wrapInt]
  refine ⟨?_, ?_, ?_⟩ <;> omega

/-- Witness of C17: with the P2P base port at the largest `int`, instance `0` gets
that port and instance `1` wraps around to the smallest `int`; the two differ. -/
theorem NetworkPorts_getters_injective_witness :
    NetworkPorts.InRange { P2PBasePort := 9223372036854775807 } ∧
    NetworkPorts.GetP2PPort { P2PBasePort := 9223372036854775807 } 0 = 9223372036854775807 ∧
    NetworkPorts.GetP2PPort { P2PBasePort := 9223372036854775807 } 1 = -9223372036854775808 ∧
    NetworkPorts.GetP2PPort { P2PBasePort := 9223372036854775807 } 0 ≠
      NetworkPorts.GetP2PPort { P2PBasePort := 9223372036854775807 } 1 :=
  ⟨by unfold NetworkPorts.InRange minInt maxInt; decide, by decide, by decide,
   (NetworkPorts_getters_injective { P2PBasePort := 9223372036854775807 } 0 1
      (by decide) (by decide) (by decide)).1⟩

/-! ## `GetMultiaddr` after `ValidateConfig` -/

/-- C18. Given that the parser accepts the IPv6 literal `"::1"`, as `net.ParseIP`
does, the configuration with host `"::1"` and port `9000` passes `ValidateConfig`
and its `GetMultiaddr` is `"/ip4/::1/tcp/9000"`; and for every configuration that
passes `ValidateConfig`, the result of `GetMultiaddr` starts with `"/ip4/"`, the
host that follows being the wildcard or any literal the parser accepts. -/
theorem GetMultiaddr_ip4_after_validation (parseIP : String → Bool) (c : NetworkConfig)
    (hloop : parseIP "::1" = true) (hvalid : c.ValidateConfig parseIP = none) :
    NetworkConfig.ValidateConfig parseIP { ListenHost := "::1", ListenPort := 9000 } = none ∧
    NetworkConfig.GetMultiaddr { ListenHost := "::1", ListenPort := 9000 } =
      "/ip4/::1/tcp/9000" ∧
    c.GetMultiaddr = "/ip4/" ++ (c.ListenHost ++ "/tcp/" ++ fmtD c.ListenPort) ∧
    c.GetMultiaddr.data.take 5 = ['/', 'i', 'p', '4', '/'] ∧
    (c.ListenHost = "0.0.0.0" ∨ parseIP c.ListenHost = true) := by
  have hm : c.GetMultiaddr = "/ip4/" ++ (c.ListenHost ++ "/tcp/" ++ fmtD c.ListenPort) := by
    unfold NetworkConfig.GetMultiaddr
    rw [Sprintf_multiaddr]
    apply String.ext
    simp
  refine ⟨?_, by decide, hm, ?_, ?_⟩
  · rw [ValidateConfig_cases, if_neg (fun h => by rw [hloop] at h; exact Bool.noConfusion h.2),
      if_neg (by decide)]
  · rw [hm]
    simp
  · by_cases hh : c.ListenHost ≠ "0.0.0.0" ∧ parseIP c.ListenHost = false
    · rw [ValidateConfig_cases, if_pos hh] at hvalid
      exact Option.noConfusion hvalid
    · by_cases hw : c.ListenHost = "0.0.0.0"
      · exact Or.inl hw
      · right
        cases hp : parseIP c.ListenHost
        · exact absurd ⟨hw, hp⟩ hh
        · rfl

/-- Witness of C18: a parser that accepts `"::1"` and `"127.0.0.1"`, and the
configuration with host `"::1"` and port `9000`. -/
theorem GetMultiaddr_ip4_after_validation_witness :
    NetworkConfig.ValidateConfig (fun s => s == "::1" || s == "127.0.0.1")
      { ListenHost := "::1", ListenPort := 9000 } = none ∧
    NetworkConfig.GetMultiaddr { ListenHost := "::1", ListenPort := 9000 } =
      "/ip4/::1/tcp/9000" :=
  ⟨(GetMultiaddr_ip4_after_validation (fun s => s == "::1" || s == "127.0.0.1")
      { ListenHost := "::1", ListenPort := 9000 } (by decide) (by decide)).1,
   (GetMultiaddr_ip4_after_validation (fun s => s == "::1" || s == "127.0.0.1")
      { ListenHost := "::1", ListenPort := 9000 } (by decide) (by decide)).2.1⟩

end Blockchain
